import Mathlib

/-!
Verification of the docxTopdf conversion engine against its design
specification.  The Python sources (`docx_converter.py`,
`conversion_report.py`, `docx_to_pdf_zip_app.py`) are shallowly embedded:
the per-file retry loop of `DocxConverter.convert_single_file` becomes a
fuel-indexed recursion over an environment describing the file system and
the behaviour of the two conversion strategies, the report object becomes
a record with the source's mutators, and the result-collection loop of
`convert_and_zip_thread` becomes a fold over the completed futures.
Wall-clock timestamps are modelled as natural numbers of seconds and the
one-decimal percentage formatting of Python's `"\x7b:.1f\x7d"` as exact
rational rounding (half to even); file paths, sleeps, logging `print`s and
`gc.collect` calls have no observable effect on the specified behaviour
and carry no state here.
-/

namespace DocxTopdf

/-- Python exceptions (all `Exception` subclasses) that can cross the
boundary of the `try` block in `convert_single_file`.  `futuresTimeout`
is `concurrent.futures.TimeoutError` raised by `fut.result(timeout=...)`;
`valueError` covers the internally raised "PDF buit o inexistent" check
as well as any `ValueError` raised by the strategy; `runtimeError` is the
"docx2pdf not available" failure; `otherExc` is any other exception
raised by the primary strategy.  The attached string models `str(exc)`. -/
inductive PyExc where
  | futuresTimeout (m : String)
  | valueError (m : String)
  | runtimeError (m : String)
  | otherExc (m : String)
deriving DecidableEq

/-- Model of `str(exc)` for each modelled exception. -/
def PyExc.msg : PyExc → String
  | .futuresTimeout m => m
  | .valueError m => m
  | .runtimeError m => m
  | .otherExc m => m

/-- Which exceptions the first handler `except (FuturesTimeoutError,
ValueError)` of `convert_single_file` (docx_converter.py line 120)
catches; every other exception falls to `except Exception` (line 134). -/
def isTimeoutOrValueError : PyExc → Bool
  | .futuresTimeout _ => true
  | .valueError _ => true
  | _ => false

/-- Observable behaviour of one `docx2pdf.convert` call (docx_converter.py
lines 110-112): either the call returns and the output file afterwards
exists with the given non-emptiness, or `fut.result` raises. -/
inductive PrimaryBehavior where
  | completes (outputNonEmpty : Bool)
  | raises (e : PyExc)
deriving DecidableEq

/-- Environment of one `convert_single_file` run: the file-system facts
checked by the preconditions, availability of the optional dependencies,
and the (attempt-indexed, 1-based) behaviour of the primary strategy and
of the win32 fallback's COM body. -/
structure ConvEnv where
  inputExists : Bool
  inputIsFile : Bool
  tempDirExists : Bool
  convertAvailable : Bool
  has_win32 : Bool
  docxFile : String
  tempDir : String
  stem : String
  primary : Nat → PrimaryBehavior
  win32 : Nat → Bool

/-- Model of `pdf_path = Path(temp_dir) / (docx_path.stem + ".pdf")`
(docx_converter.py line 80); the OS path separator is written `/`. -/
def pdf_path (env : ConvEnv) : String :=
  env.tempDir ++ "/" ++ env.stem ++ ".pdf"

/-- The triple `Tuple[Optional[Path], int, Optional[str]]` returned by
`convert_single_file`: produced output path, attempts made, error. -/
structure Outcome where
  output : Option String
  attempts : Nat
  error : Option String
deriving DecidableEq

/-- Result of a `convert_single_file` run together with the attempts at
which the primary strategy was actually submitted and at which the win32
fallback was actually called (observation of the run, for stating claims
about strategy invocations). -/
structure RunResult where
  outcome : Outcome
  primaryCalls : List Nat
  fallbackCalls : List Nat
deriving DecidableEq

/-- Model of `DocxConverter.convert_with_win32` (docx_converter.py lines 53-73):
returns `False` when win32 is unavailable, otherwise the COM body either
produces a non-empty pdf (`True`) or fails/raises (`False`, all
exceptions are caught inside); `env.win32 attempt` models that body. -/
def convert_with_win32 (env : ConvEnv) (attempt : Nat) : Bool :=
  if env.has_win32 then env.win32 attempt else false

/-- What the `try` block of one loop iteration does: return the success
triple, or raise. -/
inductive TryResult where
  | success
  | raised (e : PyExc)
deriving DecidableEq

/-- The `try` block of docx_converter.py lines 101-118 on a given attempt.
The second component records whether `convert` was submitted (it is not
when the module is unavailable, line 103-104).  A completed call whose
output is missing or empty raises `ValueError` (line 118). -/
def tryBlock (env : ConvEnv) (attempt : Nat) : TryResult × Bool :=
  if env.convertAvailable then
    match env.primary attempt with
    | .raises e => (.raised e, true)
    | .completes true => (.success, true)
    | .completes false =>
        (.raised (.valueError ("PDF buit o inexistent després de docx2pdf")), true)
  else
    (.raised (.runtimeError ("El mòdul docx2pdf no està disponible.")), false)

/-- Control flow after one loop iteration: an early `return` with an
outcome, or fall through to the next attempt with the updated
`last_error`. -/
inductive StepResult where
  | done (o : Outcome)
  | next (lastErr : String)
deriving DecidableEq

/-- One iteration of the retry loop (docx_converter.py lines 93-142):
run the `try` block; on success return `(pdf_path, attempt, None)`; on a
timeout/ValueError failure optionally run the win32 fallback (only when
`has_win32` and not on the final attempt, line 125) and return success
immediately if it works (line 130-132); otherwise fall through with
`last_error = str(exc)`.  The two booleans record whether the primary
strategy was submitted and whether the fallback was called. -/
def attemptStep (env : ConvEnv) (mr attempt : Nat) : StepResult × Bool × Bool :=
  match tryBlock env attempt with
  | (.success, sub) => (.done ⟨some (pdf_path env), attempt, none⟩, sub, false)
  | (.raised e, sub) =>
    if isTimeoutOrValueError e then
      if env.has_win32 = true ∧ attempt < mr then
        if convert_with_win32 env attempt then
          (.done ⟨some (pdf_path env), attempt, none⟩, sub, true)
        else (.next (PyExc.msg e), sub, true)
      else (.next (PyExc.msg e), sub, false)
    else (.next (PyExc.msg e), sub, false)

/-- Python string interpolation of an `Optional[str]`: `None` prints as
`"None"`. -/
def pyStr : Option String → String
  | none => "None"
  | some s => s

/-- The final failure message of docx_converter.py lines 148-152:
`f"Fallo després de (max_retries) intents: (last_error)"`. -/
def failMsg (mr : Nat) (lastError : Option String) : String :=
  "Fallo després de " ++ toString mr ++ " intents: " ++ pyStr lastError

/-- The retry loop `for attempt in range(1, self.max_retries + 1)`
(docx_converter.py lines 93-152), as a recursion on the number of
remaining iterations (`fuel`), threading `last_error` and the recorded
strategy invocations.  When the fuel is exhausted the loop falls through
to the final `return (None, self.max_retries, ...)`. -/
def convertAttempts (env : ConvEnv) (mr : Nat) :
    Nat → Nat → Option String → List Nat → List Nat → RunResult
  | 0, _, lastError, pC, fC => ⟨⟨none, mr, some (failMsg mr lastError)⟩, pC, fC⟩
  | fuel + 1, attempt, _, pC, fC =>
    match attemptStep env mr attempt with
    | (.done o, sub, fb) =>
        ⟨o, pC ++ if sub then [attempt] else [], fC ++ if fb then [attempt] else []⟩
    | (.next le, sub, fb) =>
        convertAttempts env mr fuel (attempt + 1) (some le)
          (pC ++ if sub then [attempt] else []) (fC ++ if fb then [attempt] else [])

/-- Model of `DocxConverter.convert_single_file` (docx_converter.py lines 75-152):
the two precondition checks (lines 84-91) return immediately with
`(None, 0, message)`; otherwise the retry loop runs with `max_retries`
iterations starting at attempt 1 and `last_error = None`. -/
def convert_single_file (env : ConvEnv) (max_retries : Nat) : RunResult :=
  if !env.inputExists || !env.inputIsFile then
    ⟨⟨none, 0, some ("El fitxer " ++ env.docxFile ++ " no existeix o no és vàlid.")⟩,
      [], []⟩
  else if !env.tempDirExists then
    ⟨⟨none, 0, some ("El directori temporal " ++ env.tempDir ++ " no existeix.")⟩,
      [], []⟩
  else
    convertAttempts env max_retries max_retries 1 none [] []

/-- Model of `ConversionReport` (conversion_report.py lines 4-22): the aggregate
state of one batch run.  Timestamps are seconds as natural numbers. -/
structure ConversionReport where
  total_files : Nat
  successful_conversions : List String
  failed_conversions : List (String × String)
  retried_files : List (String × Nat)
  start_time : Option Nat
  end_time : Option Nat
deriving DecidableEq

/-- Model of `ConversionReport.__init__` (lines 7-13). -/
def ConversionReport.init : ConversionReport := ⟨0, [], [], [], none, none⟩

/-- Model of `ConversionReport.add_success` (line 15-16). -/
def ConversionReport.add_success (r : ConversionReport) (filename : String) :
    ConversionReport :=
  { r with successful_conversions := r.successful_conversions ++ [filename] }

/-- Model of `ConversionReport.add_failure` (line 18-19). -/
def ConversionReport.add_failure (r : ConversionReport) (filename error : String) :
    ConversionReport :=
  { r with failed_conversions := r.failed_conversions ++ [(filename, error)] }

/-- Model of `ConversionReport.add_retry` (line 21-22). -/
def ConversionReport.add_retry (r : ConversionReport) (filename : String)
    (attempts : Nat) : ConversionReport :=
  { r with retried_files := r.retried_files ++ [(filename, attempts)] }

/-- The dictionary returned by `ConversionReport.get_summary`. -/
structure Summary where
  total : Nat
  success : Nat
  failed : Nat
  retried : Nat
  duration : Nat
deriving DecidableEq

/-- Model of `ConversionReport.get_summary` (lines 24-34).  Python computes the
duration only when both timestamps are truthy (present and non-zero);
`max(0.0, end - start)` is natural-number truncated subtraction here. -/
def ConversionReport.get_summary (r : ConversionReport) : Summary :=
  let duration :=
    match r.start_time, r.end_time with
    | some s, some e => if s ≠ 0 ∧ e ≠ 0 then e - s else 0
    | _, _ => 0
  ⟨r.total_files, r.successful_conversions.length, r.failed_conversions.length,
    r.retried_files.length, duration⟩

/-- Python string repetition `c * n` for a character. -/
def repChar (c : Char) (n : Nat) : String := String.mk (List.replicate n c)

/-- Python's format spec `:<35`: pad on the right with spaces up to the
given width (in characters). -/
def padRight (s : String) (w : Nat) : String := s ++ repChar ' ' (w - s.length)

/-- Python's `f"(x):.1f"` applied to the exact ratio
`(num / den) * 100`: one decimal digit, rounding half to even (the
double-precision detour of the source is abstracted to exact rational
rounding; every value the claims touch is an exact decimal). -/
def fmtPct1 (num den : Nat) : String :=
  let scaled := num * 1000
  let q := scaled / den
  let r := scaled % den
  let tenths :=
    if 2 * r < den then q
    else if den < 2 * r then q + 1
    else if q % 2 = 0 then q else q + 1
  toString (tenths / 10) ++ "." ++ toString (tenths % 10)

/-- The closing verdict of `generate_detailed_report`
(conversion_report.py lines 97-102). -/
def verdict_line (success failed : Nat) : String :=
  if failed = 0 then "✅ CONVERSIÓ COMPLETADA AMB ÈXIT TOTAL"
  else if 0 < success then "⚠️  CONVERSIÓ COMPLETADA AMB ALGUNS ERRORS"
  else "❌ NO S'HA POGUT CONVERTIR CAP FITXER"

/-- The `lines` list built by `ConversionReport.generate_detailed_report`
(conversion_report.py lines 36-103), in source order: header and general
summary (note `total = int(summary["total"]) or 1`, line 38, is the value
used both for the percentages and on the displayed total line), the
retried-files section, the converted-without-retry section (only when
there were successes and no retried files, capped at 10 entries), the
unresolved-failures section with fixed suggestions, and the closing
verdict between separators. -/
def report_lines (r : ConversionReport) : List String :=
  let summary := r.get_summary
  let total := if summary.total = 0 then 1 else summary.total
  let success := summary.success
  let failed := summary.failed
  let retried := summary.retried
  let duration := summary.duration
  let duration_min := duration / 60
  let duration_sec := duration % 60
  let success_pct := fmtPct1 success total
  let failed_pct := fmtPct1 failed total
  let sep := repChar '=' 72
  let sub := repChar '-' 72
  let header : List String :=
    [sep,
     "INFORME DE CONVERSIÓ DOCX → PDF",
     sep,
     "",
     "📊 RESUM GENERAL",
     sub,
     padRight ("Total de fitxers processats:") 35 ++ " " ++ toString total,
     padRight ("✓ Conversions exitoses:") 35 ++ toString success ++
       " (" ++ success_pct ++ "%)",
     padRight ("✗ Conversions fallides:") 35 ++ toString failed ++
       " (" ++ failed_pct ++ "%)",
     padRight ("🔄 Fitxers amb reintents:") 35 ++ toString retried,
     padRight ("⏱️  Temps total:") 35 ++ toString duration_min ++ "m " ++
       toString duration_sec ++ "s",
     ""]
  let retriedSec : List String :=
    if r.retried_files = [] then [] else
      ["🔄 FITXERS RESOLTS DESPRÉS DE REINTENTS", sub] ++
      (r.retried_files.flatMap (fun p =>
        ["  • " ++ p.1,
         "    └─ Resolt després de " ++ toString p.2 ++ " intent(s)"])) ++ [""]
  let successSec : List String :=
    if success ≠ 0 ∧ r.retried_files = [] then
      ["✓ FITXERS CONVERTITS SENSE REINTENTS", sub] ++
      (r.successful_conversions.take 10).map (fun f => "  ✓ " ++ f) ++
      (if 10 < r.successful_conversions.length then
        ["  ... i " ++ toString (r.successful_conversions.length - 10) ++ " més"]
       else []) ++ [""]
    else []
  let failSec : List String :=
    if r.failed_conversions = [] then [] else
      ["✗ FITXERS AMB ERRORS NO RESOLTS", sub] ++
      (r.failed_conversions.flatMap (fun p =>
        ["  ✗ " ++ p.1,
         "    └─ Error: " ++ p.2,
         "    └─ Suggeriments:",
         "       • Verifica si el DOCX és corrupte",
         "       • Comprova que MS Word estigui instal·lat",
         "       • Obre i desa de nou el DOCX"])) ++ [""]
  header ++ retriedSec ++ successSec ++ failSec ++
    [sep, verdict_line success failed, sep]

/-- Model of `ConversionReport.generate_detailed_report`: `"\n".join(lines)`. -/
def generate_detailed_report (r : ConversionReport) : String :=
  String.intercalate "\n" (report_lines r)

/-- The observable result of one completed future in the collection loop
of `convert_and_zip_thread` (docx_to_pdf_zip_app.py lines 433-434):
either `fut.result()` returned the converter's triple, or it raised an
exception with the given `str(exc)`. -/
inductive FutResult where
  | ok (res : Outcome)
  | exc (msg : String)
deriving DecidableEq

/-- Python's `error or "Error desconegut"`: `None` and the empty string
are falsy. -/
def pyOr (o : Option String) (dflt : String) : String :=
  match o with
  | some s => if s = "" then dflt else s
  | none => dflt

/-- The body of the collection loop for one completed future
(docx_to_pdf_zip_app.py lines 430-477): on a returned triple with a
produced path, append the pdf and record a success, plus a retry entry
when `attempts > 1`; on a triple without a path record a failure with
`error or "Error desconegut"`; on a raised exception record a failure
with its message. -/
def process_result (rep : ConversionReport) (pdfFiles : List String)
    (name : String) (fr : FutResult) : ConversionReport × List String :=
  match fr with
  | .ok o =>
    match o.output with
    | some pdf =>
        let rep := rep.add_success name
        let rep := if 1 < o.attempts then rep.add_retry name o.attempts else rep
        (rep, pdfFiles ++ [pdf])
    | none => (rep.add_failure name (pyOr o.error ("Error desconegut")), pdfFiles)
  | .exc m => (rep.add_failure name m, pdfFiles)

/-- The collection loop over a list of completed futures (each a
`(Path(src).name, fut.result observation)` pair), starting from a given
report and produced-pdf list. -/
def collect_from (rep : ConversionReport) (pdfFiles : List String)
    (items : List (String × FutResult)) : ConversionReport × List String :=
  items.foldl (fun st it => process_result st.1 st.2 it.1 it.2) (rep, pdfFiles)

/-- A whole collection phase absent cancellation: the report starts fresh
with `total_files = len(docx_files)` (docx_to_pdf_zip_app.py lines
365-366) and every future is consumed. -/
def collect_results (items : List (String × FutResult)) :
    ConversionReport × List String :=
  collect_from { ConversionReport.init with total_files := items.length } [] items

/-- The run-level errors `convert_and_zip_thread` can raise after the
collection loop: the zero-success `RuntimeError("No s'ha pogut convertir
cap fitxer.")` (line 495-496) or a failure of the zip-packaging phase. -/
inductive BatchError where
  | noFilesConverted
  | zipFailure (msg : String)
deriving DecidableEq

/-- Model of `convert_and_zip_thread` absent cancellation (docx_to_pdf_zip_app.py
lines 398-548, with `cancel_flag` never set): collect every future, then
fail hard when no pdf was produced, otherwise package (`zipOk` tells
whether the zip phase succeeds; its failure message is abstract).
Returns the raised run-level error (if any) with the final report and
produced files. -/
def convert_and_zip_thread (items : List (String × FutResult))
    (zipOk : Bool) (zipMsg : String) :
    Option BatchError × ConversionReport × List String :=
  let st := collect_results items
  if st.2 = [] then (some .noFilesConverted, st.1, st.2)
  else if zipOk then (none, st.1, st.2)
  else (some (.zipFailure zipMsg), st.1, st.2)

/-- A run whose every attempt raises a non-ValueError strategy error
("boom") while the win32 fallback is available and would always
succeed. -/
def envC3 : ConvEnv :=
  { inputExists := true, inputIsFile := true, tempDirExists := true
    convertAvailable := true, has_win32 := true
    docxFile := "doc.docx", tempDir := "tmp", stem := "doc"
    primary := fun _ => .raises (.otherExc "boom")
    win32 := fun _ => true }

/-- A run whose every attempt times out while the win32 fallback is
available and always succeeds. -/
def envC3w : ConvEnv :=
  { inputExists := true, inputIsFile := true, tempDirExists := true
    convertAvailable := true, has_win32 := true
    docxFile := "doc.docx", tempDir := "tmp", stem := "doc"
    primary := fun _ => .raises (.futuresTimeout "")
    win32 := fun _ => true }

/-- A run whose every attempt times out, with no win32 fallback. -/
def envC5w : ConvEnv :=
  { inputExists := true, inputIsFile := true, tempDirExists := true
    convertAvailable := true, has_win32 := false
    docxFile := "doc.docx", tempDir := "tmp", stem := "doc"
    primary := fun _ => .raises (.futuresTimeout "")
    win32 := fun _ => false }

/-- A run whose primary strategy produces an empty output on attempts 1
and 2 and succeeds on attempt 3, with no fallback. -/
def envC6 : ConvEnv :=
  { inputExists := true, inputIsFile := true, tempDirExists := true
    convertAvailable := true, has_win32 := false
    docxFile := "doc.docx", tempDir := "tmp", stem := "doc"
    primary := fun k => if k = 3 then .completes true else .completes false
    win32 := fun _ => false }

/-- A run whose input file is missing (the strategies would succeed). -/
def envC7w : ConvEnv :=
  { inputExists := false, inputIsFile := false, tempDirExists := true
    convertAvailable := true, has_win32 := true
    docxFile := "doc.docx", tempDir := "tmp", stem := "doc"
    primary := fun _ => .completes true
    win32 := fun _ => true }

/-- A one-file batch whose conversion succeeded on the third attempt. -/
def itemsC6 : List (String × FutResult) :=
  [("a.docx", .ok ⟨some ("tmp/a.pdf"), 3, none⟩)]

/-- A report with one failure and no success. -/
def repC9w : ConversionReport :=
  { ConversionReport.init with failed_conversions := [("a.docx", "boom")] }

/-- An early `return` inside the retry loop always carries the success
triple `(pdf_path, attempt, None)` of the attempt it happens on. -/
theorem attemptStep_done_eq (env : ConvEnv) (mr a : Nat) (o : Outcome)
    (h : (attemptStep env mr a).1 = .done o) :
    o = ⟨some (pdf_path env), a, none⟩ := by
  unfold attemptStep at h
  rcases htb : tryBlock env a with ⟨tr, sub⟩
  rw [htb] at h
  cases tr with
  | success => simpa using h.symm
  | raised e =>
    simp only [] at h
    split at h
    · split at h
      · split at h
        · simpa using h.symm
        · simp at h
      · simp at h
    · simp at h

/-- The retry loop either returns a success triple at some attempt within
its fuel, or falls through to the final-failure triple. -/
theorem convertAttempts_shape (env : ConvEnv) (mr : Nat) :
    ∀ fuel attempt le pC fC,
      (∃ k, attempt ≤ k ∧ k < attempt + fuel ∧
        (convertAttempts env mr fuel attempt le pC fC).outcome =
          ⟨some (pdf_path env), k, none⟩) ∨
      (∃ le', (convertAttempts env mr fuel attempt le pC fC).outcome =
          ⟨none, mr, some (failMsg mr le')⟩) := by
  intro fuel
  induction fuel with
  | zero =>
    intro attempt le pC fC
    exact Or.inr ⟨le, rfl⟩
  | succ n ih =>
    intro attempt le pC fC
    rcases hs : attemptStep env mr attempt with ⟨sr, sub, fb⟩
    cases sr with
    | done o =>
      have ho : o = ⟨some (pdf_path env), attempt, none⟩ :=
        attemptStep_done_eq env mr attempt o (by rw [hs])
      left
      exact ⟨attempt, le_refl _, by omega, by simp [convertAttempts, hs, ho]⟩
    | next lastErr =>
      have hrec := ih (attempt + 1) (some lastErr)
        (pC ++ if sub then [attempt] else []) (fC ++ if fb then [attempt] else [])
      rcases hrec with ⟨k, hk1, hk2, hk3⟩ | ⟨le', h'⟩
      · left
        exact ⟨k, by omega, by omega, by simp only [convertAttempts, hs]; exact hk3⟩
      · right
        exact ⟨le', by simp only [convertAttempts, hs]; exact h'⟩

/-- The loop makes at most one primary submission and at most one
fallback call per unit of fuel. -/
theorem convertAttempts_calls_le (env : ConvEnv) (mr : Nat) :
    ∀ fuel attempt le pC fC,
      (convertAttempts env mr fuel attempt le pC fC).primaryCalls.length ≤
        pC.length + fuel ∧
      (convertAttempts env mr fuel attempt le pC fC).fallbackCalls.length ≤
        fC.length + fuel := by
  intro fuel
  induction fuel with
  | zero => intro attempt le pC fC; simp [convertAttempts]
  | succ n ih =>
    intro attempt le pC fC
    rcases hs : attemptStep env mr attempt with ⟨sr, sub, fb⟩
    cases sr with
    | done o =>
      constructor <;>
        · simp only [convertAttempts, hs]
          split <;> simp
    | next lastErr =>
      have hrec := ih (attempt + 1) (some lastErr)
        (pC ++ if sub then [attempt] else []) (fC ++ if fb then [attempt] else [])
      constructor
      · refine le_trans (by simp only [convertAttempts, hs]; exact hrec.1) ?_
        split <;> simp <;> omega
      · refine le_trans (by simp only [convertAttempts, hs]; exact hrec.2) ?_
        split <;> simp <;> omega

/-- The recorded fallback calls only ever grow across the loop. -/
theorem convertAttempts_fallback_extends (env : ConvEnv) (mr : Nat) :
    ∀ fuel attempt le pC fC, ∃ t,
      (convertAttempts env mr fuel attempt le pC fC).fallbackCalls = fC ++ t := by
  intro fuel
  induction fuel with
  | zero => intro attempt le pC fC; exact ⟨[], by simp [convertAttempts]⟩
  | succ n ih =>
    intro attempt le pC fC
    rcases hs : attemptStep env mr attempt with ⟨sr, sub, fb⟩
    cases sr with
    | done o =>
      exact ⟨if fb then [attempt] else [], by simp only [convertAttempts, hs]⟩
    | next lastErr =>
      rcases ih (attempt + 1) (some lastErr)
        (pC ++ if sub then [attempt] else [])
        (fC ++ if fb then [attempt] else []) with ⟨t, ht⟩
      exact ⟨(if fb then [attempt] else []) ++ t, by
        simp only [convertAttempts, hs]; rw [ht, List.append_assoc]⟩

/-- The `try` block only succeeds when the primary strategy completed
with a non-empty output. -/
theorem tryBlock_success (env : ConvEnv) (a : Nat)
    (h : (tryBlock env a).1 = .success) : env.primary a = .completes true := by
  unfold tryBlock at h
  split at h
  · split at h
    · simp at h
    · next heq => next hav => exact heq
    · simp at h
  · simp at h

/-- If the primary strategy never completes with output and the win32
body never succeeds, each loop iteration falls through. -/
theorem attemptStep_next_of_fail (env : ConvEnv) (mr a : Nat)
    (hp : ∀ k, env.primary k ≠ .completes true)
    (hw : ∀ k, env.win32 k = false) :
    ∃ le sub fb, attemptStep env mr a = (.next le, sub, fb) := by
  rcases htb : tryBlock env a with ⟨tr, sub⟩
  cases tr with
  | success => exact absurd (tryBlock_success env a (by rw [htb])) (hp a)
  | raised e =>
    unfold attemptStep
    rw [htb]
    simp only []
    split
    · split
      · have hcw : convert_with_win32 env a = false := by
          unfold convert_with_win32; split <;> simp [hw a]
        rw [hcw]
        exact ⟨PyExc.msg e, sub, true, rfl⟩
      · exact ⟨PyExc.msg e, sub, false, rfl⟩
    · exact ⟨PyExc.msg e, sub, false, rfl⟩

/-- With a never-succeeding primary strategy and a never-succeeding
fallback the loop always falls through to the final failure triple. -/
theorem convertAttempts_allfail (env : ConvEnv) (mr : Nat)
    (hp : ∀ k, env.primary k ≠ .completes true)
    (hw : ∀ k, env.win32 k = false) :
    ∀ fuel attempt le pC fC, ∃ le',
      (convertAttempts env mr fuel attempt le pC fC).outcome =
        ⟨none, mr, some (failMsg mr le')⟩ := by
  intro fuel
  induction fuel with
  | zero => intro attempt le pC fC; exact ⟨le, rfl⟩
  | succ n ih =>
    intro attempt le pC fC
    rcases attemptStep_next_of_fail env mr attempt hp hw with ⟨le', sub, fb, hs⟩
    rcases ih (attempt + 1) (some le')
      (pC ++ if sub then [attempt] else [])
      (fC ++ if fb then [attempt] else []) with ⟨le'', h⟩
    exact ⟨le'', by simp only [convertAttempts, hs]; exact h⟩

/-- The final failure message is never the empty string. -/
theorem failMsg_ne_empty (mr : Nat) (le : Option String) : failMsg mr le ≠ "" := by
  intro h
  have hlen : (failMsg mr le).length = 0 := by rw [h]; rfl
  unfold failMsg at hlen
  rw [String.length_append, String.length_append, String.length_append] at hlen
  have : (0:Nat) < "Fallo després de ".length := by decide
  omega

/-- C2: for every input to `convert_single_file` (any file-system state,
strategy behaviour and retry budget), the returned triple has its output
path set with no error, or no output path and an error set — never both
set and never neither, so the outcome is a success exactly when the
output path is set, exactly when the error is unset. -/
theorem c2_outcome_exclusive (env : ConvEnv) (mr : Nat) :
    ((convert_single_file env mr).outcome.output.isSome = true ∧
      (convert_single_file env mr).outcome.error = none) ∨
    ((convert_single_file env mr).outcome.output = none ∧
      (convert_single_file env mr).outcome.error.isSome = true) := by
  unfold convert_single_file
  split
  · right; simp
  · split
    · right; simp
    · rcases convertAttempts_shape env mr mr 1 none [] [] with ⟨k, _, _, h⟩ | ⟨le', h⟩
      · left; rw [h]; exact ⟨rfl, rfl⟩
      · right; rw [h]; exact ⟨rfl, rfl⟩

/-- C10: for every environment (every primary/fallback behaviour,
including any raised exception and an unavailable primary strategy)
`convert_single_file` returns an outcome triple: the attempt loop is
bounded by `max_retries` — the reported attempt count, the number of
primary submissions and the number of fallback calls never exceed it —
and the result is always a well-formed triple (output xor error), never
a propagated exception. -/
theorem c10_no_exception_bounded (env : ConvEnv) (mr : Nat) :
    (convert_single_file env mr).outcome.attempts ≤ mr ∧
    (convert_single_file env mr).primaryCalls.length ≤ mr ∧
    (convert_single_file env mr).fallbackCalls.length ≤ mr ∧
    (((convert_single_file env mr).outcome.output.isSome = true ∧
        (convert_single_file env mr).outcome.error = none) ∨
      ((convert_single_file env mr).outcome.output = none ∧
        (convert_single_file env mr).outcome.error.isSome = true)) := by
  refine ⟨?_, ?_, ?_, ?_⟩
  · unfold convert_single_file
    split
    · simp
    · split
      · simp
      · rcases convertAttempts_shape env mr mr 1 none [] [] with ⟨k, hk1, hk2, h⟩ | ⟨le', h⟩
        · rw [h]; simpa using by omega
        · rw [h]
  · unfold convert_single_file
    split
    · simp
    · split
      · simp
      · simpa using (convertAttempts_calls_le env mr mr 1 none [] []).1
  · unfold convert_single_file
    split
    · simp
    · split
      · simp
      · simpa using (convertAttempts_calls_le env mr mr 1 none [] []).2
  · unfold convert_single_file
    split
    · right; simp
    · split
      · right; simp
      · rcases convertAttempts_shape env mr mr 1 none [] [] with ⟨k, _, _, h⟩ | ⟨le', h⟩
        · left; rw [h]; exact ⟨rfl, rfl⟩
        · right; rw [h]; exact ⟨rfl, rfl⟩

/-- C7: when the input file does not exist or is not a regular file, or
the output directory does not exist, `convert_single_file` returns an
immediate failure with `attempts = 0`, an error message, and no strategy
invocation at all — neither primary nor fallback. -/
theorem c7_precondition_failure (env : ConvEnv) (mr : Nat)
    (h : env.inputExists = false ∨ env.inputIsFile = false ∨
      env.tempDirExists = false) :
    (convert_single_file env mr).outcome.output = none ∧
    (convert_single_file env mr).outcome.attempts = 0 ∧
    (convert_single_file env mr).outcome.error.isSome = true ∧
    (convert_single_file env mr).primaryCalls = [] ∧
    (convert_single_file env mr).fallbackCalls = [] := by
  unfold convert_single_file
  rcases h with h | h | h
  · simp [h]
  · simp [h]
  · cases hc : (!env.inputExists || !env.inputIsFile) <;> simp [hc, h]

/-- C7 witness: a run on a missing input file. -/
theorem c7_precondition_failure_witness :
    envC7w.inputExists = false ∧
    (convert_single_file envC7w 5).outcome.attempts = 0 ∧
    (convert_single_file envC7w 5).primaryCalls = [] ∧
    (convert_single_file envC7w 5).fallbackCalls = [] := by
  have h := c7_precondition_failure envC7w 5 (Or.inl rfl)
  exact ⟨rfl, h.2.1, h.2.2.2.1, h.2.2.2.2⟩

/-- C5: when the preconditions pass, the primary strategy never produces
output on any attempt and the fallback never succeeds, the converter
returns a failure whose attempt count is exactly `max_retries` and whose
error is the last recorded attempt error prefixed by the summary
`"Fallo després de N intents: "` — hence a non-empty string. -/
theorem c5_exhausts_max_retries (env : ConvEnv) (mr : Nat)
    (h1 : env.inputExists = true) (h2 : env.inputIsFile = true)
    (h3 : env.tempDirExists = true)
    (hp : ∀ k, env.primary k ≠ .completes true)
    (hw : ∀ k, env.win32 k = false) :
    (convert_single_file env mr).outcome.output = none ∧
    (convert_single_file env mr).outcome.attempts = mr ∧
    (∃ le, (convert_single_file env mr).outcome.error = some (failMsg mr le)) ∧
    (∀ s, (convert_single_file env mr).outcome.error = some s → s ≠ "") := by
  rcases convertAttempts_allfail env mr hp hw mr 1 none [] [] with ⟨le', hout⟩
  have hrun : (convert_single_file env mr).outcome =
      ⟨none, mr, some (failMsg mr le')⟩ := by
    unfold convert_single_file
    simp only [h1, h2, h3]
    simpa using hout
  refine ⟨by rw [hrun], by rw [hrun], ⟨le', by rw [hrun]⟩, ?_⟩
  intro s hs
  rw [hrun] at hs
  have : s = failMsg mr le' := by simpa using hs.symm
  rw [this]
  exact failMsg_ne_empty mr le'

/-- C5 witness: two timeouts on two allowed attempts, no fallback. -/
theorem c5_exhausts_max_retries_witness :
    (∀ k, envC5w.primary k ≠ .completes true) ∧
    (∀ k, envC5w.win32 k = false) ∧
    (convert_single_file envC5w 2).outcome.output = none ∧
    (convert_single_file envC5w 2).outcome.attempts = 2 ∧
    (∃ le, (convert_single_file envC5w 2).outcome.error = some (failMsg 2 le)) := by
  have h := c5_exhausts_max_retries envC5w 2 rfl rfl rfl
    (fun k hk => by simp [envC5w] at hk) (fun k => rfl)
  exact ⟨fun k hk => by simp [envC5w] at hk, fun k => rfl, h.1, h.2.1, h.2.2.1⟩

/-- C3 counterexample: an attempt that fails with a strategy-reported
error that is neither a timeout nor a `ValueError` (here a generic
"boom" exception) does not run the available win32 fallback even though
it is not the final attempt and the fallback would succeed: the run
ends as a failure after both attempts with no fallback call, instead of
the immediate success the claim requires. -/
theorem c3_counterexample :
    (convert_single_file envC3 2).fallbackCalls = [] ∧
    (convert_single_file envC3 2).outcome =
      ⟨none, 2, some ("Fallo després de 2 intents: boom")⟩ := by
  exact ⟨rfl, rfl⟩

/-- C3 (amended): for every attempt that fails with a timeout or a
`ValueError` (which includes the empty-output check), if win32 is
available and the attempt is not the final one, the fallback is run at
that attempt, and if it succeeds the loop returns success immediately
with `attempts` equal to the current attempt index. -/
theorem c3_fallback_on_timeout_or_valueerror (env : ConvEnv)
    (mr fuel attempt : Nat) (le : Option String) (pC fC : List Nat) (e : PyExc)
    (htb : (tryBlock env attempt).1 = .raised e)
    (hclass : isTimeoutOrValueError e = true)
    (hwin : env.has_win32 = true)
    (hlt : attempt < mr) :
    attempt ∈ (convertAttempts env mr (fuel + 1) attempt le pC fC).fallbackCalls ∧
    (env.win32 attempt = true →
      (convertAttempts env mr (fuel + 1) attempt le pC fC).outcome =
        ⟨some (pdf_path env), attempt, none⟩) := by
  rcases hp : tryBlock env attempt with ⟨tr, sub⟩
  have htr : tr = .raised e := by rw [hp] at htb; exact htb
  subst htr
  have hstep : attemptStep env mr attempt =
      (if convert_with_win32 env attempt then
        (.done ⟨some (pdf_path env), attempt, none⟩, sub, true)
       else (.next (PyExc.msg e), sub, true)) := by
    unfold attemptStep
    rw [hp]
    simp [hclass, hwin, hlt]
  cases hcw : convert_with_win32 env attempt with
  | true =>
    rw [hcw] at hstep
    simp at hstep
    constructor
    · simp [convertAttempts, hstep]
    · intro _
      simp [convertAttempts, hstep]
  | false =>
    rw [hcw] at hstep
    simp at hstep
    constructor
    · rcases convertAttempts_fallback_extends env mr fuel (attempt + 1)
        (some (PyExc.msg e)) (pC ++ if sub then [attempt] else [])
        (fC ++ [attempt]) with ⟨t, ht⟩
      simp [convertAttempts, hstep, ht]
    · intro hww
      unfold convert_with_win32 at hcw
      rw [hwin] at hcw
      simp [hww] at hcw

/-- C3 (amended) witness: a timeout on attempt 1 of 2 with a working
win32 fallback returns success at attempt 1 and records the fallback
call. -/
theorem c3_fallback_witness :
    (tryBlock envC3w 1).1 = .raised (.futuresTimeout "") ∧
    envC3w.has_win32 = true ∧ 1 < 2 ∧ envC3w.win32 1 = true ∧
    1 ∈ (convertAttempts envC3w 2 2 1 none [] []).fallbackCalls ∧
    (convertAttempts envC3w 2 2 1 none [] []).outcome =
      ⟨some (pdf_path envC3w), 1, none⟩ := by
  have h := c3_fallback_on_timeout_or_valueerror envC3w 2 1 1 none [] []
    (.futuresTimeout "") rfl rfl rfl (by omega)
  exact ⟨rfl, rfl, by omega, rfl, h.1, h.2 rfl⟩

/-- Processing one completed future records exactly one success or one
failure, never touches `total_files`, and appends a produced pdf exactly
when it records a success. -/
theorem process_result_counts (rep : ConversionReport) (pdfs : List String)
    (n : String) (fr : FutResult) :
    ((process_result rep pdfs n fr).1.successful_conversions.length +
      (process_result rep pdfs n fr).1.failed_conversions.length =
      rep.successful_conversions.length + rep.failed_conversions.length + 1) ∧
    ((process_result rep pdfs n fr).1.total_files = rep.total_files) ∧
    ((process_result rep pdfs n fr).2.length +
        rep.successful_conversions.length =
      pdfs.length + (process_result rep pdfs n fr).1.successful_conversions.length) := by
  cases fr with
  | exc m =>
    simp [process_result, ConversionReport.add_failure]
    omega
  | ok o =>
    cases ho : o.output with
    | none =>
      simp [process_result, ho, ConversionReport.add_failure]
      omega
    | some pdf =>
      simp only [process_result, ho]
      split <;>
        · simp [ConversionReport.add_success, ConversionReport.add_retry]
          omega

/-- The collection fold adds exactly one success-or-failure per item,
keeps `total_files`, and grows the pdf list by one per success. -/
theorem collect_from_counts :
    ∀ (items : List (String × FutResult)) (rep : ConversionReport)
      (pdfs : List String),
      ((collect_from rep pdfs items).1.successful_conversions.length +
        (collect_from rep pdfs items).1.failed_conversions.length =
        rep.successful_conversions.length + rep.failed_conversions.length +
          items.length) ∧
      ((collect_from rep pdfs items).1.total_files = rep.total_files) ∧
      ((collect_from rep pdfs items).2.length +
          rep.successful_conversions.length =
        pdfs.length + (collect_from rep pdfs items).1.successful_conversions.length) := by
  intro items
  induction items with
  | nil => intro rep pdfs; simp [collect_from]
  | cons it rest ih =>
    intro rep pdfs
    have hone := process_result_counts rep pdfs it.1 it.2
    have hrec := ih (process_result rep pdfs it.1 it.2).1
      (process_result rep pdfs it.1 it.2).2
    have hfold : collect_from rep pdfs (it :: rest) =
        collect_from (process_result rep pdfs it.1 it.2).1
          (process_result rep pdfs it.1 it.2).2 rest := by
      simp [collect_from]
    rw [hfold]
    simp only [List.length_cons]
    refine ⟨by omega, by omega, by omega⟩

/-- Processing one completed future preserves the invariant that every
retried entry has more than one attempt and belongs to a recorded
success. -/
theorem process_result_retried_inv (rep : ConversionReport)
    (pdfs : List String) (n : String) (fr : FutResult)
    (hinv : ∀ p ∈ rep.retried_files,
      1 < p.2 ∧ p.1 ∈ rep.successful_conversions) :
    ∀ p ∈ (process_result rep pdfs n fr).1.retried_files,
      1 < p.2 ∧ p.1 ∈ (process_result rep pdfs n fr).1.successful_conversions := by
  cases fr with
  | exc m =>
    intro p hp
    have hp' : p ∈ rep.retried_files := by
      simpa [process_result, ConversionReport.add_failure] using hp
    have hres := hinv p hp'
    simpa [process_result, ConversionReport.add_failure] using hres
  | ok o =>
    cases ho : o.output with
    | none =>
      intro p hp
      have hp' : p ∈ rep.retried_files := by
        simpa [process_result, ho, ConversionReport.add_failure] using hp
      have hres := hinv p hp'
      simpa [process_result, ho, ConversionReport.add_failure] using hres
    | some pdf =>
      intro p hp
      simp only [process_result, ho] at hp ⊢
      by_cases hatt : 1 < o.attempts
      · rw [if_pos hatt] at hp ⊢
        simp only [ConversionReport.add_retry, ConversionReport.add_success,
          List.mem_append, List.mem_singleton] at hp ⊢
        rcases hp with hp | hp
        · rcases hinv p hp with ⟨h1, h2⟩
          exact ⟨h1, Or.inl h2⟩
        · subst hp
          exact ⟨hatt, Or.inr rfl⟩
      · rw [if_neg hatt] at hp ⊢
        simp only [ConversionReport.add_success, List.mem_append,
          List.mem_singleton] at hp ⊢
        rcases hinv p hp with ⟨h1, h2⟩
        exact ⟨h1, Or.inl h2⟩

/-- The retried-entry invariant is preserved by the whole collection
fold. -/
theorem collect_from_retried_inv :
    ∀ (items : List (String × FutResult)) (rep : ConversionReport)
      (pdfs : List String),
      (∀ p ∈ rep.retried_files, 1 < p.2 ∧ p.1 ∈ rep.successful_conversions) →
      ∀ p ∈ (collect_from rep pdfs items).1.retried_files,
        1 < p.2 ∧ p.1 ∈ (collect_from rep pdfs items).1.successful_conversions := by
  intro items
  induction items with
  | nil => intro rep pdfs hinv; simpa [collect_from] using hinv
  | cons it rest ih =>
    intro rep pdfs hinv
    have hfold : collect_from rep pdfs (it :: rest) =
        collect_from (process_result rep pdfs it.1 it.2).1
          (process_result rep pdfs it.1 it.2).2 rest := by
      simp [collect_from]
    rw [hfold]
    exact ih _ _ (process_result_retried_inv rep pdfs it.1 it.2 hinv)

/-- C1: during result collection the recorded successes and failures
never exceed the declared total — after any number `j` of consumed
futures (a cancelled run stops at such a point) their sum is at most
`total_files` — the completed run (no cancellation) ends with the sum
exactly equal to `total_files`, and each consumed future contributes
exactly one `add_success` or `add_failure` call. -/
theorem c1_sum_le_total (items : List (String × FutResult)) (j : Nat) :
    ((collect_from { ConversionReport.init with total_files := items.length } []
        (items.take j)).1.successful_conversions.length +
      (collect_from { ConversionReport.init with total_files := items.length } []
        (items.take j)).1.failed_conversions.length ≤
      (collect_from { ConversionReport.init with total_files := items.length } []
        (items.take j)).1.total_files) ∧
    ((collect_results items).1.successful_conversions.length +
      (collect_results items).1.failed_conversions.length =
      (collect_results items).1.total_files) ∧
    (∀ (rep : ConversionReport) (pdfs : List String) (n : String)
        (fr : FutResult),
      (process_result rep pdfs n fr).1.successful_conversions.length +
        (process_result rep pdfs n fr).1.failed_conversions.length =
        rep.successful_conversions.length + rep.failed_conversions.length + 1) := by
  have hini : ({ ConversionReport.init with total_files := items.length } :
      ConversionReport) = ⟨items.length, [], [], [], none, none⟩ := rfl
  refine ⟨?_, ?_, ?_⟩
  · rw [hini]
    have h := collect_from_counts (items.take j)
      (⟨items.length, [], [], [], none, none⟩ : ConversionReport) []
    simp at h
    have hlen : (items.take j).length ≤ items.length := by
      simp [List.length_take]
    omega
  · have hcr : collect_results items =
        collect_from (⟨items.length, [], [], [], none, none⟩ : ConversionReport)
          [] items := rfl
    rw [hcr]
    have h := collect_from_counts items
      (⟨items.length, [], [], [], none, none⟩ : ConversionReport) []
    simp at h
    omega
  · intro rep pdfs n fr
    exact (process_result_counts rep pdfs n fr).1

/-- C6: a retried entry is recorded only for a file that is also
recorded as a success and whose attempt count exceeds 1; and the
concrete scenario (fail, fail, success) under `max_retries = 3` yields
`attempts = 3`, a recorded success, and the retried entry
`(name, 3)`. -/
theorem c6_retried_with_success :
    (∀ (items : List (String × FutResult)) (p : String × Nat),
      p ∈ (collect_results items).1.retried_files →
      1 < p.2 ∧ p.1 ∈ (collect_results items).1.successful_conversions) ∧
    ((convert_single_file envC6 3).outcome = ⟨some (pdf_path envC6), 3, none⟩) ∧
    ((process_result ConversionReport.init [] ("doc.docx")
        (.ok (convert_single_file envC6 3).outcome)).1.successful_conversions =
      ["doc.docx"]) ∧
    ((process_result ConversionReport.init [] ("doc.docx")
        (.ok (convert_single_file envC6 3).outcome)).1.retried_files =
      [("doc.docx", 3)]) := by
  refine ⟨?_, rfl, rfl, rfl⟩
  intro items p hp
  exact collect_from_retried_inv items
    { ConversionReport.init with total_files := items.length } []
    (by intro q hq; simp [ConversionReport.init] at hq) p hp

/-- C6 witness: a one-file batch that succeeded on the third attempt has
its retried entry, with an attempt count above 1 and its name among the
successes. -/
theorem c6_retried_with_success_witness :
    (("a.docx", 3) ∈ (collect_results itemsC6).1.retried_files) ∧
    1 < 3 ∧ "a.docx" ∈ (collect_results itemsC6).1.successful_conversions := by
  have h := (c6_retried_with_success).1 itemsC6 ("a.docx", 3) (by decide)
  exact ⟨by decide, h.1, h.2⟩

/-- C8: absent cancellation, per-file failures never abort the batch —
every future is consumed, so successes plus failures always add up to
the batch size — and the run raises the hard "no files converted"
failure exactly when zero output files were produced, which in turn
happens exactly when there were zero successes. -/
theorem c8_zero_success_hard_failure (items : List (String × FutResult))
    (zipOk : Bool) (zipMsg : String) :
    ((convert_and_zip_thread items zipOk zipMsg).1 = some .noFilesConverted ↔
      (convert_and_zip_thread items zipOk zipMsg).2.2 = []) ∧
    ((convert_and_zip_thread items zipOk zipMsg).2.1.successful_conversions.length +
      (convert_and_zip_thread items zipOk zipMsg).2.1.failed_conversions.length =
      items.length) ∧
    ((convert_and_zip_thread items zipOk zipMsg).2.2 = [] ↔
      (convert_and_zip_thread items zipOk zipMsg).2.1.successful_conversions = []) := by
  have hcr : collect_results items =
      collect_from (⟨items.length, [], [], [], none, none⟩ : ConversionReport)
        [] items := rfl
  have hc := collect_from_counts items
    (⟨items.length, [], [], [], none, none⟩ : ConversionReport) []
  rw [← hcr] at hc
  simp at hc
  have hsum : (collect_results items).1.successful_conversions.length +
      (collect_results items).1.failed_conversions.length = items.length := hc.1
  have hpdfs : (collect_results items).2.length =
      (collect_results items).1.successful_conversions.length := hc.2.2
  have hiff : (collect_results items).2 = [] ↔
      (collect_results items).1.successful_conversions = [] := by
    rw [← List.length_eq_zero, ← List.length_eq_zero, hpdfs]
  by_cases hemp : (collect_results items).2 = []
  · have hrun : convert_and_zip_thread items zipOk zipMsg =
        (some .noFilesConverted, (collect_results items).1,
          (collect_results items).2) := by
      unfold convert_and_zip_thread
      simp [hemp]
    rw [hrun]
    exact ⟨by simp [hemp], hsum, hiff⟩
  · by_cases hzip : zipOk = true
    · have hrun : convert_and_zip_thread items zipOk zipMsg =
          (none, (collect_results items).1, (collect_results items).2) := by
        unfold convert_and_zip_thread
        simp [hemp, hzip]
      rw [hrun]
      exact ⟨by simp [hemp], hsum, hiff⟩
    · have hrun : convert_and_zip_thread items zipOk zipMsg =
          (some (.zipFailure zipMsg), (collect_results items).1,
            (collect_results items).2) := by
        unfold convert_and_zip_thread
        simp [hemp, hzip]
      rw [hrun]
      exact ⟨by simp [hemp], hsum, hiff⟩

/-- C4 counterexample: rendering a report whose declared total is 0 (the
fresh report) prints `1` on the "Total de fitxers processats" line —
the `or 1` substitute used for the percentages — and the line showing
the declared total `0` appears nowhere in the rendered report. -/
theorem c4_counterexample :
    (report_lines ConversionReport.init)[6]? =
      some (padRight ("Total de fitxers processats:") 35 ++ " 1") ∧
    (padRight ("Total de fitxers processats:") 35 ++ " 0") ∉
      report_lines ConversionReport.init := by
  exact ⟨rfl, by decide⟩

/-- C4 (amended): when the report renders with `total_files = 0`, the
percentages are computed with the total treated as 1, and the displayed
total on the summary line is that same substituted value 1, not the
declared 0. -/
theorem c4_total_zero_renders_one (r : ConversionReport)
    (h : r.total_files = 0) :
    (report_lines r)[6]? =
      some (padRight ("Total de fitxers processats:") 35 ++ " " ++ toString 1) ∧
    (report_lines r)[7]? =
      some (padRight ("✓ Conversions exitoses:") 35 ++
        toString r.successful_conversions.length ++
        " (" ++ fmtPct1 r.successful_conversions.length 1 ++ "%)") ∧
    (report_lines r)[8]? =
      some (padRight ("✗ Conversions fallides:") 35 ++
        toString r.failed_conversions.length ++
        " (" ++ fmtPct1 r.failed_conversions.length 1 ++ "%)") := by
  unfold report_lines ConversionReport.get_summary
  simp [h]

/-- C4 (amended) witness: the fresh report, rendered. -/
theorem c4_total_zero_renders_one_witness :
    ConversionReport.init.total_files = 0 ∧
    (report_lines ConversionReport.init)[6]? =
      some (padRight ("Total de fitxers processats:") 35 ++ " " ++ toString 1) := by
  exact ⟨rfl, (c4_total_zero_renders_one ConversionReport.init rfl).1⟩

/-- C9 counterexample: on a report with zero successes (and zero
failures — the fresh report) the closing verdict is the full-success
line, not the total-failure line the claim requires for zero successes;
the total-failure line appears nowhere in the rendered report. -/
theorem c9_counterexample :
    (report_lines ConversionReport.init).reverse[1]? =
      some ("✅ CONVERSIÓ COMPLETADA AMB ÈXIT TOTAL") ∧
    ("❌ NO S'HA POGUT CONVERTIR CAP FITXER") ∉
      report_lines ConversionReport.init := by
  exact ⟨rfl, by decide⟩

/-- C9 (amended): the closing verdict line (second-to-last rendered
line) is `verdict_line` of the success and failure counts: the
full-success line when there are no failures, the partial-success line
when there are some successes and some failures, and the total-failure
line when there are zero successes and at least one failure. -/
theorem c9_closing_verdict (r : ConversionReport) :
    ((report_lines r).reverse[1]? =
      some (verdict_line r.successful_conversions.length
        r.failed_conversions.length)) ∧
    (r.failed_conversions.length = 0 →
      verdict_line r.successful_conversions.length r.failed_conversions.length =
        "✅ CONVERSIÓ COMPLETADA AMB ÈXIT TOTAL") ∧
    (0 < r.successful_conversions.length ∧ 0 < r.failed_conversions.length →
      verdict_line r.successful_conversions.length r.failed_conversions.length =
        "⚠️  CONVERSIÓ COMPLETADA AMB ALGUNS ERRORS") ∧
    (r.successful_conversions.length = 0 ∧ 0 < r.failed_conversions.length →
      verdict_line r.successful_conversions.length r.failed_conversions.length =
        "❌ NO S'HA POGUT CONVERTIR CAP FITXER") := by
  refine ⟨?_, ?_, ?_, ?_⟩
  · unfold report_lines
    simp [List.reverse_append, ConversionReport.get_summary]
  · intro hf
    simp [verdict_line, hf]
  · intro ⟨hs, hf⟩
    unfold verdict_line
    rw [if_neg (by omega), if_pos hs]
  · intro ⟨hs, hf⟩
    unfold verdict_line
    rw [if_neg (by omega), if_neg (by omega)]

/-- C9 (amended) witness: a report with one failure and no success gets
the total-failure verdict as its closing line. -/
theorem c9_closing_verdict_witness :
    (repC9w.successful_conversions.length = 0 ∧
      0 < repC9w.failed_conversions.length) ∧
    verdict_line repC9w.successful_conversions.length
      repC9w.failed_conversions.length = "❌ NO S'HA POGUT CONVERTIR CAP FITXER" ∧
    (report_lines repC9w).reverse[1]? =
      some (verdict_line repC9w.successful_conversions.length
        repC9w.failed_conversions.length) := by
  exact ⟨⟨rfl, by decide⟩, (c9_closing_verdict repC9w).2.2.2 ⟨rfl, by decide⟩,
    (c9_closing_verdict repC9w).1⟩

end DocxTopdf
